import Mathlib

/-!
Verification of the PhishGuard risk-fusion core (`api/genai_app.py`):
URL feature extraction (`get_url_features`), heuristic scoring
(`ml_score_calc`), the external-classifier adapter (`genai_analysis`) with
its JSON-recovery and fallback paths, and the weighted score fusion of the
`/scan` handler.

Modelling conventions:
* Python numbers (`int` / `float`) are modelled by `ℚ`; the spec's test
  points involve no float-representation effects, and `round(x, 2)` is
  modelled by `round2` below (Python rounds half to even; the two agree at
  every input that is not an exact half-cent tie, and no claim involves one).
* `json.loads` is modelled by an executable JSON reader `json_loads`
  returning `Option Json`; a JSON number literal is kept syntactically as a
  mantissa/fraction-length/exponent triple (`JNum`), whose numeric value is
  `JNum.toRat`.  The reader is slightly lenient where Python is strict
  (leading zeros in numbers, control characters inside strings, `NaN` /
  `Infinity` literals are not modelled); no claim depends on these corners.
* `tldextract.extract` is third-party code with a bundled public-suffix
  list; it enters the model as an explicit parameter
  `extract : String → ExtractResult`, and `ExtractResult.fqdn` follows the
  library's documented rule (nonempty only when both the domain and the
  suffix are nonempty).
* Exceptions escaping a Python expression are modelled by
  `Except String _`; the carried string names the Python exception class
  (the exact message text of a `json.JSONDecodeError` is abstracted as
  `jsonDecodeErrorMsg`).
-/

namespace PhishGuard

/-- Python `url.startswith(pre)`. -/
def strStartsWith (s pre : String) : Bool :=
  pre.data.isPrefixOf s.data

/-- Python `s.count(c)` for a single-character needle. -/
def countChar (s : String) (c : Char) : Nat :=
  s.data.count c

/-- Split a character list at every dot, keeping empty groups (Python
`re` group structure of `\d{1,3}(\.\d{1,3}){3}` is recovered from the
dot-separated groups of the whole string). -/
def splitOnDot : List Char → List (List Char)
  | [] => [[]]
  | c :: cs =>
    let groups := splitOnDot cs
    if c == '.' then [] :: groups
    else
      match groups with
      | [] => [[c]]
      | g :: gs => (c :: g) :: gs

/-- One group of 1 to 3 digits (`\d{1,3}`; `\d` modelled as ASCII digits). -/
def isDigitGroup (g : List Char) : Bool :=
  decide (1 ≤ g.length) && decide (g.length ≤ 3) && g.all Char.isDigit

/-- `is_ip` (genai_app.py line 88): full match of `\d{1,3}(\.\d{1,3}){3}`. -/
def is_ip (host : String) : Bool :=
  match splitOnDot host.data with
  | [a, b, c, d] => isDigitGroup a && isDigitGroup b && isDigitGroup c && isDigitGroup d
  | _ => false

/-- The result of `tldextract.extract(url)`. -/
structure ExtractResult where
  subdomain : String
  domain : String
  suffix : String
deriving Repr, DecidableEq

/-- `.`-join of the nonempty parts. -/
def joinParts : List String → String
  | [] => ""
  | [x] => x
  | x :: xs => x ++ "." ++ joinParts xs

/-- `ExtractResult.fqdn` of tldextract: the dot-joined nonempty parts when
both a registered domain and a public suffix were found, `""` otherwise. -/
def ExtractResult.fqdn (e : ExtractResult) : String :=
  if e.domain = "" ∨ e.suffix = "" then ""
  else joinParts (List.filter (fun p => p != "") [e.subdomain, e.domain, e.suffix])

/-- genai_app.py line 86. -/
def SUSPICIOUS_TLDS : List String :=
  ["xyz", "zip", "click", "top", "tk", "ml", "ga", "cf"]

/-- The feature dict built by `get_url_features`. -/
structure UrlFeatures where
  host : String
  url_length : Nat
  num_dots : Nat
  num_hyphens : Nat
  has_https : Bool
  looks_like_ip : Bool
  suspicious_tld : Bool
deriving Repr, DecidableEq, Inhabited

/-- `get_url_features` (genai_app.py lines 92-103), with the call to
`tldextract.extract` passed in as `extract`. -/
def get_url_features (extract : String → ExtractResult) (url : String) : UrlFeatures :=
  let ext := extract url
  let host := ext.fqdn
  { host := host
    url_length := url.length
    num_dots := countChar host '.'
    num_hyphens := countChar host '-'
    has_https := strStartsWith url "https"
    looks_like_ip := is_ip host
    suspicious_tld := SUSPICIOUS_TLDS.contains ext.suffix }

/-- `ml_score_calc` (genai_app.py lines 106-130): the five fixed rules in
source order, then `min(score, 100)`. -/
def ml_score_calc (features : UrlFeatures) : Nat × List String :=
  let score : Nat := 0
  let reasons : List String := []
  let (score, reasons) :=
    if features.looks_like_ip then
      (score + 20, reasons ++ ["IP address used instead of domain"])
    else (score, reasons)
  let (score, reasons) :=
    if features.suspicious_tld then
      (score + 15, reasons ++ ["Suspicious TLD detected"])
    else (score, reasons)
  let (score, reasons) :=
    if features.url_length > 70 then
      (score + 10, reasons ++ ["Unusually long URL"])
    else (score, reasons)
  let (score, reasons) :=
    if features.num_hyphens ≥ 3 then
      (score + 10, reasons ++ ["Too many hyphens in domain"])
    else (score, reasons)
  let (score, reasons) :=
    if ¬ features.has_https then
      (score + 10, reasons ++ ["HTTPS not used"])
    else (score, reasons)
  (min score 100, reasons)

/-- A JSON number literal, kept syntactically: its value is
`mant / 10 ^ fracDigits * 10 ^ exp` (Python's json module parses `80` to
the int 80 and `8.0e1` to the float 80.0; the triple keeps the literal's
shape and `JNum.toRat` its numeric value). -/
structure JNum where
  mant : Int
  fracDigits : Nat
  exp : Int
deriving Repr, DecidableEq

/-- The numeric value of a JSON number literal. -/
def JNum.toRat (n : JNum) : ℚ :=
  (n.mant : ℚ) / (10 : ℚ) ^ n.fracDigits * (10 : ℚ) ^ n.exp

/-- Values `json.loads` can produce. -/
inductive Json where
  | null
  | bool (b : Bool)
  | num (n : JNum)
  | str (s : String)
  | arr (elems : List Json)
  | obj (members : List (String × Json))
deriving Repr, Inhabited

/-- The JSON literal of a Python int. -/
def jint (n : Int) : Json :=
  Json.num ⟨n, 0, 0⟩

/-- Drop leading JSON whitespace. -/
def skipWs : List Char → List Char
  | [] => []
  | c :: cs =>
    if c == ' ' || c == '\t' || c == '\n' || c == '\r' then skipWs cs
    else c :: cs

/-- Value of one hex digit. -/
def hexDigitVal (c : Char) : Option Nat :=
  if '0' ≤ c ∧ c ≤ '9' then some (c.toNat - '0'.toNat)
  else if 'a' ≤ c ∧ c ≤ 'f' then some (c.toNat - 'a'.toNat + 10)
  else if 'A' ≤ c ∧ c ≤ 'F' then some (c.toNat - 'A'.toNat + 10)
  else none

/-- The character a single-letter JSON escape stands for. -/
def unescapeChar : Char → Option Char
  | '"' => some '"'
  | '\\' => some '\\'
  | '/' => some '/'
  | 'b' => some (Char.ofNat 8)
  | 'f' => some (Char.ofNat 12)
  | 'n' => some '\n'
  | 'r' => some '\r'
  | 't' => some '\t'
  | _ => none

/-- Body of a JSON string after the opening quote; returns the decoded
string and the input after the closing quote (surrogate pairs in `\u`
escapes are not combined; no claim involves them). -/
def parseStrBody (acc : List Char) : List Char → Option (String × List Char)
  | [] => none
  | '"' :: rest => some (String.mk acc.reverse, rest)
  | '\\' :: 'u' :: a :: b :: c :: d :: rest =>
    match hexDigitVal a, hexDigitVal b, hexDigitVal c, hexDigitVal d with
    | some ha, some hb, some hc, some hd =>
      parseStrBody (Char.ofNat (((ha * 16 + hb) * 16 + hc) * 16 + hd) :: acc) rest
    | _, _, _, _ => none
  | '\\' :: e :: rest =>
    match unescapeChar e with
    | some c => parseStrBody (c :: acc) rest
    | none => none
  | c :: rest => parseStrBody (c :: acc) rest

/-- Value of one decimal digit character. -/
def digitVal (c : Char) : Nat :=
  c.toNat - '0'.toNat

/-- Leading run of decimal digits. -/
def takeDigits : List Char → List Char × List Char
  | [] => ([], [])
  | c :: cs =>
    if c.isDigit then
      let (ds, rest) := takeDigits cs
      (c :: ds, rest)
    else ([], c :: cs)

/-- The number a digit run denotes. -/
def natOfDigits (ds : List Char) : Nat :=
  ds.foldl (fun n c => 10 * n + digitVal c) 0

/-- Signed decimal exponent after `e`/`E`. -/
def parseExpTail (cs : List Char) : Option (Int × List Char) :=
  let (eneg, cs1) :=
    match cs with
    | '-' :: r => (true, r)
    | '+' :: r => (false, r)
    | _ => (false, cs)
  let (eds, cs2) := takeDigits cs1
  if eds.isEmpty then none
  else some (if eneg then -(natOfDigits eds : Int) else (natOfDigits eds : Int), cs2)

/-- Optional exponent part of a number literal. -/
def parseExpPart : List Char → Option (Int × List Char)
  | 'e' :: rest => parseExpTail rest
  | 'E' :: rest => parseExpTail rest
  | cs => some (0, cs)

/-- Optional fraction part: the fraction digits (possibly none). -/
def parseFracPart : List Char → Option (List Char × List Char)
  | '.' :: rest =>
    let (fds, rest2) := takeDigits rest
    if fds.isEmpty then none else some (fds, rest2)
  | cs => some ([], cs)

/-- A JSON number literal starting at `cs` (leading-zero strictness of
Python's json module is not modelled). -/
def parseNum (cs : List Char) : Option (Json × List Char) :=
  let (neg, cs1) :=
    match cs with
    | '-' :: rest => (true, rest)
    | _ => (false, cs)
  let (ints, cs2) := takeDigits cs1
  if ints.isEmpty then none
  else
    match parseFracPart cs2 with
    | none => none
    | some (fds, cs3) =>
      match parseExpPart cs3 with
      | none => none
      | some (ex, cs4) =>
        let mag : Nat := natOfDigits (ints ++ fds)
        let mant : Int := if neg then -(mag : Int) else (mag : Int)
        some (Json.num ⟨mant, fds.length, ex⟩, cs4)

/-- Python dict insertion while building an object: a repeated key keeps its
first position and takes the last value. -/
def objInsert (kvs : List (String × Json)) (k : String) (v : Json) :
    List (String × Json) :=
  if kvs.any (fun p => p.1 == k) then
    kvs.map (fun p => if p.1 == k then (k, v) else p)
  else kvs ++ [(k, v)]

mutual

/-- One JSON value starting at `cs` (after whitespace); `fuel` bounds the
recursion depth and `json_loads` supplies enough of it. -/
def parseVal : Nat → List Char → Option (Json × List Char)
  | 0, _ => none
  | fuel + 1, cs =>
    match skipWs cs with
    | 'n' :: 'u' :: 'l' :: 'l' :: rest => some (Json.null, rest)
    | 't' :: 'r' :: 'u' :: 'e' :: rest => some (Json.bool true, rest)
    | 'f' :: 'a' :: 'l' :: 's' :: 'e' :: rest => some (Json.bool false, rest)
    | '"' :: rest =>
      match parseStrBody [] rest with
      | some (s, rest2) => some (Json.str s, rest2)
      | none => none
    | '[' :: rest =>
      match skipWs rest with
      | ']' :: rest2 => some (Json.arr [], rest2)
      | _ => parseElems fuel [] rest
    | '\x7b' :: rest =>
      match skipWs rest with
      | '\x7d' :: rest2 => some (Json.obj [], rest2)
      | _ => parseMembers fuel [] rest
    | cs1 => parseNum cs1

/-- Comma-separated array elements up to the closing bracket. -/
def parseElems : Nat → List Json → List Char → Option (Json × List Char)
  | 0, _, _ => none
  | fuel + 1, acc, cs =>
    match parseVal fuel cs with
    | none => none
    | some (v, rest) =>
      match skipWs rest with
      | ',' :: rest2 => parseElems fuel (v :: acc) rest2
      | ']' :: rest2 => some (Json.arr (v :: acc).reverse, rest2)
      | _ => none

/-- Comma-separated `"key": value` members up to the closing brace. -/
def parseMembers : Nat → List (String × Json) → List Char →
    Option (Json × List Char)
  | 0, _, _ => none
  | fuel + 1, acc, cs =>
    match skipWs cs with
    | '"' :: rest =>
      match parseStrBody [] rest with
      | none => none
      | some (k, rest2) =>
        match skipWs rest2 with
        | ':' :: rest3 =>
          match parseVal fuel rest3 with
          | none => none
          | some (v, rest4) =>
            match skipWs rest4 with
            | ',' :: rest5 => parseMembers fuel (objInsert acc k v) rest5
            | '\x7d' :: rest5 => some (Json.obj (objInsert acc k v), rest5)
            | _ => none
        | _ => none
    | _ => none

end

/-- `json.loads` on a whole string: one JSON value with nothing but
whitespace around it. -/
def json_loads (s : String) : Option Json :=
  match parseVal (2 * s.length + 2) s.data with
  | some (v, rest) => if (skipWs rest).isEmpty then some v else none
  | none => none

/-- Index of the first character satisfying `p`. -/
def firstIdx (p : Char → Bool) : List Char → Option Nat
  | [] => none
  | c :: cs => if p c then some 0 else (firstIdx p cs).map (fun i => i + 1)

/-- `re.search(r"\x7b.*\x7d", content, flags=re.DOTALL)` (genai_app.py line
185): the span from the first opening brace to the last closing brace, when
a closing brace occurs after the first opening one. -/
def extractBraceSpan (s : String) : Option String :=
  let cs := s.data
  match firstIdx (fun c => c == '\x7b') cs, firstIdx (fun c => c == '\x7d') cs.reverse with
  | some i, some k =>
    let j := cs.length - 1 - k
    if i < j then some (String.mk ((cs.drop i).take (j - i + 1))) else none
  | _, _ => none

/-- What the one classifier call of a scan does: raise, or return the
response's message content. -/
inductive CallOutcome where
  | failure (msg : String)
  | response (content : String)

/-- The process-wide classifier state a scan runs against: `groq_client` is
`None`, or is configured and its call has outcome `outcome`. -/
inductive ClassifierEnv where
  | noClient
  | client (outcome : CallOutcome)

/-- The fixed fallback dict returned when `groq_client is None`
(genai_app.py lines 151-157). -/
def fallbackUnavailable : Json :=
  Json.obj
    [("genai_score", jint 50),
     ("verdict", Json.str "SUSPICIOUS"),
     ("top_reasons",
      Json.arr [Json.str "GenAI not configured (missing GROQ_API_KEY or Groq SDK)."]),
     ("notes", Json.str "Fallback used (GenAI unavailable)")]

/-- The fallback dict built in the outer `except` handler (genai_app.py
lines 190-196); `msg` is `str(e)`. -/
def fallbackError (msg : String) : Json :=
  Json.obj
    [("genai_score", jint 50),
     ("verdict", Json.str "SUSPICIOUS"),
     ("top_reasons", Json.arr [Json.str ("GenAI fallback: " ++ msg)]),
     ("notes", Json.str "Fallback used (GenAI error)")]

/-- Stands for `str(e)` of the `json.JSONDecodeError` that reaches the
outer handler when both parse attempts fail; the exact message text is
irrelevant to every claim. -/
def jsonDecodeErrorMsg : String :=
  "Expecting value"

/-- `genai_analysis` (genai_app.py lines 146-196).  The request payload
only feeds the outbound call, whose outcome `env` already carries, so the
result depends on `env` alone: no client gives the fixed unavailable
fallback; a raising call gives the error fallback; a response content is
parsed directly, then via the brace-span recovery, and the parsed value is
returned as-is; if both parses fail the error fallback is returned. -/
def genai_analysis (env : ClassifierEnv) : Json :=
  match env with
  | .noClient => fallbackUnavailable
  | .client (.failure msg) => fallbackError msg
  | .client (.response content) =>
    match json_loads content with
    | some v => v
    | none =>
      match extractBraceSpan content with
      | some block =>
        match json_loads block with
        | some v => v
        | none => fallbackError jsonDecodeErrorMsg
      | none => fallbackError jsonDecodeErrorMsg

/-- The two-stage parse of a response content: direct, then on the
extracted brace span. -/
def jsonRecover (content : String) : Option Json :=
  match json_loads content with
  | some v => some v
  | none => (extractBraceSpan content).bind json_loads

/-- Whether a parsed value is an object with key `k`. -/
def Json.hasKey (j : Json) (k : String) : Bool :=
  match j with
  | .obj kvs => kvs.any (fun p => p.1 == k)
  | _ => false

/-- All four fields of the ClassifierResult shape. -/
def hasAllFields (j : Json) : Bool :=
  j.hasKey "genai_score" && j.hasKey "verdict" && j.hasKey "top_reasons" &&
    j.hasKey "notes"

/-- Python `genai.get(key, default)`: `dict.get` on a dict, an
`AttributeError` on any other parsed value. -/
def Json.get (j : Json) (k : String) (d : Json) : Except String Json :=
  match j with
  | .obj kvs => .ok ((List.lookup k kvs).getD d)
  | _ => .error "AttributeError"

/-- Python whitespace stripped by `float(str)`. -/
def isPySpace (c : Char) : Bool :=
  c == ' ' || c == '\t' || c == '\n' || c == '\r' || c == '\x0b' || c == '\x0c'

/-- Strip leading and trailing whitespace. -/
def trimChars (cs : List Char) : List Char :=
  ((cs.dropWhile isPySpace).reverse.dropWhile isPySpace).reverse

/-- Python `float(s)` on a string: an optional sign, digits with an
optional fraction (one of the two parts may be empty, not both) and an
optional exponent (`inf`, `nan` and underscored literals are not
modelled; no claim involves them). -/
def pyFloatOfString (s : String) : Option ℚ :=
  let cs := trimChars s.data
  let (neg, cs1) :=
    match cs with
    | '-' :: r => (true, r)
    | '+' :: r => (false, r)
    | _ => (false, cs)
  let (ints, cs2) := takeDigits cs1
  let fracPart : Option (List Char × List Char) :=
    match cs2 with
    | '.' :: r =>
      let (fds, r2) := takeDigits r
      if ints.isEmpty && fds.isEmpty then none else some (fds, r2)
    | _ => if ints.isEmpty then none else some ([], cs2)
  match fracPart with
  | none => none
  | some (fds, cs3) =>
    match parseExpPart cs3 with
    | none => none
    | some (ex, cs4) =>
      if cs4.isEmpty then
        let mag : Nat := natOfDigits (ints ++ fds)
        some (JNum.toRat ⟨if neg then -(mag : Int) else (mag : Int), fds.length, ex⟩)
      else none

/-- Python `float(x)` on a value `json.loads` produced (genai_app.py line
243): numbers yield their value, booleans 1 or 0, numeric strings their
value; anything else raises. -/
def pyFloat : Json → Except String ℚ
  | .num n => .ok n.toRat
  | .bool b => .ok (if b then 1 else 0)
  | .str s =>
    match pyFloatOfString s with
    | some q => .ok q
    | none => .error "ValueError"
  | _ => .error "TypeError"

/-- Elementwise check that a parsed array holds strings: the `/scan`
response model declares `reasons: list[str]`, so a non-string entry fails
response validation. -/
def strElems : List Json → Except String (List String)
  | [] => .ok []
  | Json.str s :: rest => (strElems rest).map (fun t => s :: t)
  | _ => .error "ValidationError"

/-- `ml_reasons + genai.get("top_reasons", [])` validated as `list[str]`:
concatenating a non-list raises a `TypeError`, a non-string entry fails
response validation; both surface before a result exists. -/
def pyStrList : Json → Except String (List String)
  | .arr xs => strElems xs
  | _ => .error "TypeError"

/-- The classifier reasons a scan appends: `genai.get("top_reasons", [])`
then the `list[str]` validation. -/
def topReasonsOf (genai : Json) : Except String (List String) :=
  match Json.get genai "top_reasons" (Json.arr []) with
  | .error e => .error e
  | .ok v => pyStrList v

/-- genai_app.py line 246. -/
def final_score (ml_score genai_score : ℚ) : ℚ :=
  45 / 100 * ml_score + 55 / 100 * genai_score

/-- genai_app.py lines 248-253. -/
def verdict_of (fs : ℚ) : String :=
  if fs ≥ 75 then "PHISHING"
  else if fs ≥ 45 then "SUSPICIOUS"
  else "SAFE"

/-- Python `round(x, 2)` over ℚ (Python rounds a float half to even; away
from exact half-cent ties — every claimed value — any tie rule agrees). -/
def round2 (q : ℚ) : ℚ :=
  ((round (100 * q) : ℤ) : ℚ) / 100

/-- The `/scan` response (the `signals` wrapper `{"features": features}`
holds exactly the features snapshot, kept here as the snapshot itself). -/
structure ScanResponse where
  url : String
  verdict : String
  risk_score : ℚ
  ml_score : ℚ
  genai_score : ℚ
  reasons : List String
  signals : UrlFeatures
  genai_summary : Json
deriving Repr, Inhabited

/-- The body of `scan` (genai_app.py lines 239-266) after the classifier
value `genai` is in hand, in source order: `float(genai.get("genai_score",
50))`, the weighted score, the verdict thresholds, the truncated reason
list, then the response; a raising step aborts the scan. -/
def scanWith (url : String) (features : UrlFeatures) (genai : Json) :
    Except String ScanResponse :=
  match Json.get genai "genai_score" (jint 50) with
  | .error e => .error e
  | .ok gsRaw =>
    match pyFloat gsRaw with
    | .error e => .error e
    | .ok genai_score =>
      match topReasonsOf genai with
      | .error e => .error e
      | .ok top_reasons =>
        .ok
          { url := url
            verdict := verdict_of (final_score ((ml_score_calc features).1 : ℚ) genai_score)
            risk_score := round2 (final_score ((ml_score_calc features).1 : ℚ) genai_score)
            ml_score := ((ml_score_calc features).1 : ℚ)
            genai_score := genai_score
            reasons := ((ml_score_calc features).2 ++ top_reasons).take 6
            signals := features
            genai_summary := genai }

/-- The whole `/scan` pipeline on a validated URL, against classifier
state `env`. -/
def scan (extract : String → ExtractResult) (url : String)
    (env : ClassifierEnv) : Except String ScanResponse :=
  scanWith url (get_url_features extract url) (genai_analysis env)

/-- `tldextract.extract` at `"https://example.com/"`. -/
def exampleExtract : String → ExtractResult :=
  fun _ => ⟨"", "example", "com"⟩

/-- A benign URL (as pydantic renders it back to a string). -/
def exampleUrl : String :=
  "https://example.com/"

/-- Its features: every heuristic rule off. -/
def exampleFeatures : UrlFeatures :=
  get_url_features exampleExtract exampleUrl

/-- The spec's round-trip classifier response: JSON wrapped in prose. -/
def c5content : String :=
  "here\x27s the result: \x7b\"genai_score\": 80, \"verdict\": \"PHISHING\", \"top_reasons\": [\"x\"], \"notes\": \"n\"\x7d thanks"

/-- Its brace span, first opening brace through last closing brace. -/
def c5inner : String :=
  "\x7b\"genai_score\": 80, \"verdict\": \"PHISHING\", \"top_reasons\": [\"x\"], \"notes\": \"n\"\x7d"

/-- The value the recovery parses out of it. -/
def c5parsed : Json :=
  Json.obj
    [("genai_score", jint 80), ("verdict", Json.str "PHISHING"),
     ("top_reasons", Json.arr [Json.str "x"]), ("notes", Json.str "n")]

/-- Features of the same URL over plain http: exactly the HTTPS rule fires. -/
def dupFeatures : UrlFeatures :=
  get_url_features exampleExtract "http://example.com/"

/-- A classifier value repeating the heuristic HTTPS reason verbatim. -/
def dupGenai : Json :=
  Json.obj [("top_reasons", Json.arr [Json.str "HTTPS not used"])]

/-- The resulting scan response (the scan succeeds, see the C6 theorems). -/
def dupResult : ScanResponse :=
  ((scanWith "http://example.com/" dupFeatures dupGenai).toOption).getD default

/-- A classifier value whose hint says SAFE. -/
def hintGenai1 : Json :=
  Json.obj [("genai_score", jint 80), ("verdict", Json.str "SAFE")]

/-- Same numeric score, opposite hint, different reasons and notes. -/
def hintGenai2 : Json :=
  Json.obj
    [("genai_score", jint 80), ("verdict", Json.str "PHISHING"),
     ("top_reasons", Json.arr [Json.str "y"]), ("notes", Json.str "n")]

/-- The scan response against `hintGenai1`. -/
def hintResult1 : ScanResponse :=
  ((scanWith exampleUrl exampleFeatures hintGenai1).toOption).getD default

/-- The scan response against `hintGenai2`. -/
def hintResult2 : ScanResponse :=
  ((scanWith exampleUrl exampleFeatures hintGenai2).toOption).getD default

/-! Helper lemmas shared by the claim theorems. -/

theorem verdict_of_eq_phishing (fs : ℚ) : verdict_of fs = "PHISHING" ↔ 75 ≤ fs := by
  unfold verdict_of
  split_ifs with h1 h2
  · exact ⟨fun _ => h1, fun _ => rfl⟩
  · exact ⟨fun h => absurd h (by decide), fun hge => absurd hge h1⟩
  · exact ⟨fun h => absurd h (by decide), fun hge => absurd hge h1⟩

theorem verdict_of_eq_suspicious (fs : ℚ) :
    verdict_of fs = "SUSPICIOUS" ↔ 45 ≤ fs ∧ fs < 75 := by
  unfold verdict_of
  split_ifs with h1 h2
  · exact ⟨fun h => absurd h (by decide), fun hc => absurd h1 (not_le.mpr hc.2)⟩
  · exact ⟨fun _ => ⟨h2, not_le.mp h1⟩, fun _ => rfl⟩
  · exact ⟨fun h => absurd h (by decide), fun hc => absurd hc.1 h2⟩

theorem verdict_of_eq_safe (fs : ℚ) : verdict_of fs = "SAFE" ↔ fs < 45 := by
  unfold verdict_of
  split_ifs with h1 h2
  · exact ⟨fun h => absurd h (by decide), fun hlt => absurd h1 (not_le.mpr (by linarith))⟩
  · exact ⟨fun h => absurd h (by decide), fun hlt => absurd h2 (not_le.mpr hlt)⟩
  · exact ⟨fun _ => not_le.mp h2, fun _ => rfl⟩

/-- Inversion of a successful scan: each extraction step succeeded and the
response is the fused record. -/
theorem scanWith_ok (url : String) (f : UrlFeatures) (genai : Json)
    (r : ScanResponse) (h : scanWith url f genai = .ok r) :
    ∃ gs q tr, Json.get genai "genai_score" (jint 50) = .ok gs ∧
      pyFloat gs = .ok q ∧ topReasonsOf genai = .ok tr ∧
      r = { url := url
            verdict := verdict_of (final_score ((ml_score_calc f).1 : ℚ) q)
            risk_score := round2 (final_score ((ml_score_calc f).1 : ℚ) q)
            ml_score := ((ml_score_calc f).1 : ℚ)
            genai_score := q
            reasons := ((ml_score_calc f).2 ++ tr).take 6
            signals := f
            genai_summary := genai } := by
  unfold scanWith at h
  split at h
  · exact absurd h (by simp)
  next gs hga =>
    split at h
    · exact absurd h (by simp)
    next q hpf =>
      split at h
      · exact absurd h (by simp)
      next tr ht =>
        exact ⟨gs, q, tr, hga, hpf, ht, by injection h.symm⟩

/-! The claim theorems. -/

/-- C3: the heuristic scorer is a pure function of the feature record: the
five rules in their fixed order, one fixed reason per triggered rule in
that order, score `min (sum of triggered deltas) 100`; the raw sum is at
most 65 so the score is within [0, 100]; with no rule triggered (the
`exampleFeatures` instance) the result is score 0 and no reasons. -/
theorem C3_heuristic_scorer (f : UrlFeatures) :
    ml_score_calc f =
      (min ((if f.looks_like_ip then 20 else 0) + (if f.suspicious_tld then 15 else 0) +
          (if f.url_length > 70 then 10 else 0) + (if f.num_hyphens ≥ 3 then 10 else 0) +
          (if f.has_https then 0 else 10)) 100,
        (if f.looks_like_ip then ["IP address used instead of domain"] else []) ++
        (if f.suspicious_tld then ["Suspicious TLD detected"] else []) ++
        (if f.url_length > 70 then ["Unusually long URL"] else []) ++
        (if f.num_hyphens ≥ 3 then ["Too many hyphens in domain"] else []) ++
        (if f.has_https then [] else ["HTTPS not used"])) ∧
    (ml_score_calc f).1 ≤ 100 ∧
    (if f.looks_like_ip then 20 else 0) + (if f.suspicious_tld then 15 else 0) +
      (if f.url_length > 70 then 10 else 0) + (if f.num_hyphens ≥ 3 then 10 else 0) +
      (if f.has_https then 0 else 10) ≤ 65 ∧
    ml_score_calc exampleFeatures = (0, []) := by
  obtain ⟨host, len, dots, hyph, https, ip, tld⟩ := f
  have heq : ml_score_calc ⟨host, len, dots, hyph, https, ip, tld⟩ =
      (min ((if ip then 20 else 0) + (if tld then 15 else 0) +
          (if len > 70 then 10 else 0) + (if hyph ≥ 3 then 10 else 0) +
          (if https then 0 else 10)) 100,
        (if ip then ["IP address used instead of domain"] else []) ++
        (if tld then ["Suspicious TLD detected"] else []) ++
        (if len > 70 then ["Unusually long URL"] else []) ++
        (if hyph ≥ 3 then ["Too many hyphens in domain"] else []) ++
        (if https then [] else ["HTTPS not used"])) := by
    cases ip <;> cases tld <;> cases https <;>
      by_cases h1 : len > 70 <;> by_cases h2 : hyph ≥ 3 <;>
      simp [ml_score_calc, h1, h2]
  refine ⟨heq, ?_, ?_, by decide⟩
  · rw [heq]
    exact Nat.min_le_right _ _
  · split_ifs <;> omega

/-- C9: `has_https` is exactly the literal-prefix test `url.startswith
("https")` — not scheme parsing — so `"httpsx://x.com"` passes while
`"http://example.com/"` does not. -/
theorem C9_has_https_prefix (extract : String → ExtractResult) (url : String) :
    (get_url_features extract url).has_https = strStartsWith url "https" ∧
    (get_url_features exampleExtract "httpsx://x.com").has_https = true ∧
    (get_url_features exampleExtract "http://example.com/").has_https = false :=
  ⟨rfl, by decide, by decide⟩

/-- C10 (counterexample): for `"https://xyz"` tldextract finds the public
suffix `"xyz"` and no registered domain, so the host resolves to `""`;
yet `has_https` and `suspicious_tld` are both true, while the claim says
every boolean feature is false when the host is empty. -/
theorem C10_counterexample :
    (get_url_features (fun _ => ⟨"", "", "xyz"⟩) "https://xyz").host = "" ∧
    (get_url_features (fun _ => ⟨"", "", "xyz"⟩) "https://xyz").has_https = true ∧
    (get_url_features (fun _ => ⟨"", "", "xyz"⟩) "https://xyz").suspicious_tld = true :=
  ⟨by decide, by decide, by decide⟩

/-- C10 (amended): when host resolution yields `""`, the host-derived
features default: both counts are zero and `looks_like_ip` is false
(`has_https` keeps the prefix test on the URL and `suspicious_tld` the
suffix membership, which do not read the host). -/
theorem C10_empty_host_defaults (extract : String → ExtractResult) (url : String)
    (h : (get_url_features extract url).host = "") :
    (get_url_features extract url).num_dots = 0 ∧
    (get_url_features extract url).num_hyphens = 0 ∧
    (get_url_features extract url).looks_like_ip = false := by
  have hf : (extract url).fqdn = "" := h
  refine ⟨?_, ?_, ?_⟩ <;> simp [get_url_features, hf] <;> rfl

/-- C10 (witness): the amended statement at `"https://localhost"`, whose
extraction has no public suffix, hence an empty fqdn. -/
theorem C10_empty_host_defaults_witness :
    (get_url_features (fun _ => ⟨"", "", ""⟩) "https://localhost").num_dots = 0 ∧
    (get_url_features (fun _ => ⟨"", "", ""⟩) "https://localhost").num_hyphens = 0 ∧
    (get_url_features (fun _ => ⟨"", "", ""⟩) "https://localhost").looks_like_ip = false :=
  C10_empty_host_defaults (fun _ => ⟨"", "", ""⟩) "https://localhost" rfl

/-- C5: on the spec's prose-wrapped response, direct parsing fails, the
recovery takes the span from the first opening brace through the last
closing brace and parses it, and the adapter returns the recovered object
with genai_score 80. -/
theorem C5_brace_recovery :
    json_loads c5content = none ∧
    extractBraceSpan c5content = some c5inner ∧
    genai_analysis (.client (.response c5content)) = c5parsed ∧
    Json.get (genai_analysis (.client (.response c5content))) "genai_score" (jint 50) =
      .ok (jint 80) :=
  ⟨rfl, rfl, rfl, rfl⟩

/-- C4 (counterexample): a classifier response of `"\x7b\x7d"` parses as the
empty object, which the adapter returns as-is — none of the four
ClassifierResult fields is present, against the claim that they always
are. -/
theorem C4_counterexample :
    genai_analysis (.client (.response "\x7b\x7d")) = Json.obj [] ∧
    hasAllFields (genai_analysis (.client (.response "\x7b\x7d"))) = false :=
  ⟨rfl, rfl⟩

/-- C4 (amended): on every fallback path (no client, call failure, both
parse attempts failing) the adapter's value carries all four fields; when
a parse attempt succeeds, the parsed JSON is returned unvalidated and may
lack any of them. -/
theorem C4_classifier_result_fields (env : ClassifierEnv) :
    hasAllFields (genai_analysis env) = true ∨
    ∃ c v, env = ClassifierEnv.client (CallOutcome.response c) ∧
      jsonRecover c = some v ∧ genai_analysis env = v := by
  cases env with
  | noClient => exact Or.inl rfl
  | client outcome =>
    cases outcome with
    | failure msg => exact Or.inl rfl
    | response c =>
      cases h1 : json_loads c with
      | some v =>
        refine Or.inr ⟨c, v, rfl, ?_, ?_⟩
        · simp [jsonRecover, h1]
        · simp [genai_analysis, h1]
      | none =>
        cases h2 : extractBraceSpan c with
        | none =>
          refine Or.inl ?_
          have hgen : genai_analysis (ClassifierEnv.client (CallOutcome.response c)) =
              fallbackError jsonDecodeErrorMsg := by
            simp [genai_analysis, h1, h2]
          rw [hgen]
          rfl
        | some blk =>
          cases h3 : json_loads blk with
          | some v =>
            refine Or.inr ⟨c, v, rfl, ?_, ?_⟩
            · simp [jsonRecover, h1, h2, h3]
            · simp [genai_analysis, h1, h2, h3]
          | none =>
            refine Or.inl ?_
            have hgen : genai_analysis (ClassifierEnv.client (CallOutcome.response c)) =
                fallbackError jsonDecodeErrorMsg := by
              simp [genai_analysis, h1, h2, h3]
            rw [hgen]
            rfl

/-- C1: the adapter itself is total — with no client it returns the fixed
unavailable fallback, and a raising call or a doubly-unparseable response
returns the error fallback — but a response that parses to valid non-object
JSON (here `"[1]"`) is returned as-is, and the scan body then raises on
`genai.get`, so the pipeline does not always produce a ScanResult. -/
theorem C1_always_answer :
    genai_analysis .noClient =
      Json.obj
        [("genai_score", jint 50), ("verdict", Json.str "SUSPICIOUS"),
         ("top_reasons",
          Json.arr [Json.str "GenAI not configured (missing GROQ_API_KEY or Groq SDK)."]),
         ("notes", Json.str "Fallback used (GenAI unavailable)")] ∧
    (∀ msg, genai_analysis (.client (.failure msg)) =
      Json.obj
        [("genai_score", jint 50), ("verdict", Json.str "SUSPICIOUS"),
         ("top_reasons", Json.arr [Json.str ("GenAI fallback: " ++ msg)]),
         ("notes", Json.str "Fallback used (GenAI error)")]) ∧
    genai_analysis (.client (.response "no json at all")) =
      fallbackError jsonDecodeErrorMsg ∧
    genai_analysis (.client (.response "[1]")) = Json.arr [jint 1] ∧
    (scanWith exampleUrl exampleFeatures
      (genai_analysis (.client (.response "[1]")))).isOk = false :=
  ⟨rfl, fun _ => rfl, rfl, rfl, rfl⟩

/-- C2: the fusion formula is `0.45 · ml + 0.55 · genai`, the verdict
thresholds are ≥75 PHISHING, [45, 75) SUSPICIOUS, <45 SAFE, the risk
score is the final score rounded to 2 decimals, and the spec's four test
points evaluate as claimed (36.5 = 73/2; the (0, 60) scan instance shows
the rounded score and threshold verdict inside the full scan body). -/
theorem C2_fusion_engine (ml g : ℚ) :
    final_score ml g = 45 / 100 * ml + 55 / 100 * g ∧
    (verdict_of (final_score ml g) = "PHISHING" ↔ 75 ≤ final_score ml g) ∧
    (verdict_of (final_score ml g) = "SUSPICIOUS" ↔
      45 ≤ final_score ml g ∧ final_score ml g < 75) ∧
    (verdict_of (final_score ml g) = "SAFE" ↔ final_score ml g < 45) ∧
    round2 (final_score 0 0) = 0 ∧ verdict_of (final_score 0 0) = "SAFE" ∧
    round2 (final_score 100 100) = 100 ∧
    verdict_of (final_score 100 100) = "PHISHING" ∧
    final_score 20 50 = 73 / 2 ∧ round2 (final_score 20 50) = 73 / 2 ∧
    verdict_of (final_score 20 50) = "SAFE" ∧
    round2 (final_score 60 60) = 60 ∧ verdict_of (final_score 60 60) = "SUSPICIOUS" ∧
    scanWith exampleUrl exampleFeatures (Json.obj [("genai_score", jint 60)]) =
      .ok { url := exampleUrl, verdict := "SAFE", risk_score := 33, ml_score := 0,
            genai_score := 60, reasons := [], signals := exampleFeatures,
            genai_summary := Json.obj [("genai_score", jint 60)] } := by
  have hml : ml_score_calc exampleFeatures = (0, []) := by decide
  refine ⟨rfl, verdict_of_eq_phishing _, verdict_of_eq_suspicious _, verdict_of_eq_safe _,
    ?_, ?_, ?_, ?_, ?_, ?_, ?_, ?_, ?_, ?_⟩
  · norm_num [final_score, round2]
  · norm_num [final_score, verdict_of]
  · norm_num [final_score, round2, round_eq]
  · norm_num [final_score, verdict_of]
  · norm_num [final_score]
  · norm_num [final_score, round2, round_eq]
  · norm_num [final_score, verdict_of]
  · norm_num [final_score, round2, round_eq]
  · norm_num [final_score, verdict_of]
  · simp only [scanWith, hml, Json.get, List.lookup, topReasonsOf, pyStrList, strElems,
      pyFloat, jint]
    norm_num [verdict_of, final_score, JNum.toRat, round2, round_eq]
    rfl

/-- C6: whenever the scan succeeds, its reason list is exactly the
heuristic reasons followed by the classifier reasons, truncated to 6, so
its length is never above 6; and no deduplication happens — the
`dupGenai` instance repeats the heuristic HTTPS reason verbatim and the
response carries it twice. -/
theorem C6_reasons_truncation (url : String) (f : UrlFeatures) (genai : Json)
    (r : ScanResponse) (h : scanWith url f genai = .ok r) :
    (∃ tr, topReasonsOf genai = .ok tr ∧
      r.reasons = ((ml_score_calc f).2 ++ tr).take 6) ∧
    r.reasons.length ≤ 6 ∧
    scanWith "http://example.com/" dupFeatures dupGenai = .ok dupResult ∧
    dupResult.reasons = ["HTTPS not used", "HTTPS not used"] := by
  obtain ⟨gs, q, tr, hga, hpf, ht, hr⟩ := scanWith_ok url f genai r h
  subst hr
  refine ⟨⟨tr, ht, rfl⟩, ?_, rfl, rfl⟩
  show (((ml_score_calc f).2 ++ tr).take 6).length ≤ 6
  rw [List.length_take]
  exact Nat.min_le_left _ _

/-- C6 (witness): the truncation statement at the duplicate-reason
instance. -/
theorem C6_reasons_truncation_witness :
    (∃ tr, topReasonsOf dupGenai = .ok tr ∧
      dupResult.reasons = ((ml_score_calc dupFeatures).2 ++ tr).take 6) ∧
    dupResult.reasons.length ≤ 6 ∧
    scanWith "http://example.com/" dupFeatures dupGenai = .ok dupResult ∧
    dupResult.reasons = ["HTTPS not used", "HTTPS not used"] :=
  C6_reasons_truncation "http://example.com/" dupFeatures dupGenai dupResult rfl

/-- C7: fusion applies no clamping to the classifier score — the value
under the `genai_score` key is extracted and converted as-is, an
out-of-range 200 yields risk 110 with verdict PHISHING, and a missing
`genai_score` key falls back to the default 50 (risk 27.5 here). -/
theorem C7_no_clamping :
    (∀ jn : JNum,
      Json.get (Json.obj [("genai_score", Json.num jn)]) "genai_score" (jint 50) =
        .ok (Json.num jn) ∧ pyFloat (Json.num jn) = .ok jn.toRat) ∧
    scanWith exampleUrl exampleFeatures (Json.obj [("genai_score", jint 200)]) =
      .ok { url := exampleUrl, verdict := "PHISHING", risk_score := 110, ml_score := 0,
            genai_score := 200, reasons := [], signals := exampleFeatures,
            genai_summary := Json.obj [("genai_score", jint 200)] } ∧
    Json.get (Json.obj []) "genai_score" (jint 50) = .ok (jint 50) ∧
    scanWith exampleUrl exampleFeatures (Json.obj []) =
      .ok { url := exampleUrl, verdict := "SAFE", risk_score := 55 / 2, ml_score := 0,
            genai_score := 50, reasons := [], signals := exampleFeatures,
            genai_summary := Json.obj [] } := by
  have hml : ml_score_calc exampleFeatures = (0, []) := by decide
  refine ⟨fun jn => ⟨rfl, rfl⟩, ?_, rfl, ?_⟩
  · simp only [scanWith, hml, Json.get, List.lookup, topReasonsOf, pyStrList, strElems,
      pyFloat, jint]
    norm_num [verdict_of, final_score, JNum.toRat, round2, round_eq]
    rfl
  · simp only [scanWith, hml, Json.get, List.lookup, topReasonsOf, pyStrList, strElems,
      pyFloat, jint]
    norm_num [verdict_of, final_score, JNum.toRat, round2, round_eq]
    rfl

/-- C8: risk score and verdict depend on nothing of the classifier value
but the extracted `genai_score` — two classifier values agreeing on it
(whatever their `verdict` hint, reasons or notes) scan to the same risk
score and verdict, and each full classifier value is preserved unchanged
in `genai_summary`. -/
theorem C8_fusion_determinism (url : String) (f : UrlFeatures) (j1 j2 : Json)
    (r1 r2 : ScanResponse)
    (h1 : scanWith url f j1 = .ok r1) (h2 : scanWith url f j2 = .ok r2)
    (hg : Json.get j1 "genai_score" (jint 50) = Json.get j2 "genai_score" (jint 50)) :
    r1.risk_score = r2.risk_score ∧ r1.verdict = r2.verdict ∧
    r1.genai_summary = j1 ∧ r2.genai_summary = j2 := by
  obtain ⟨gs1, q1, tr1, hga1, hpf1, ht1, hr1⟩ := scanWith_ok url f j1 r1 h1
  obtain ⟨gs2, q2, tr2, hga2, hpf2, ht2, hr2⟩ := scanWith_ok url f j2 r2 h2
  rw [hga1, hga2] at hg
  injection hg with hgs
  subst hgs
  rw [hpf1] at hpf2
  injection hpf2 with hq
  subst hq
  subst hr1
  subst hr2
  exact ⟨rfl, rfl, rfl, rfl⟩

/-- C8 (witness): two classifier values with score 80 and opposite hints
scan identically apart from the preserved summary. -/
theorem C8_fusion_determinism_witness :
    hintResult1.risk_score = hintResult2.risk_score ∧
    hintResult1.verdict = hintResult2.verdict ∧
    hintResult1.genai_summary = hintGenai1 ∧
    hintResult2.genai_summary = hintGenai2 :=
  C8_fusion_determinism exampleUrl exampleFeatures hintGenai1 hintGenai2
    hintResult1 hintResult2 rfl rfl rfl

end PhishGuard
